import Mathlib

/-!
Shallow embedding of `src/openssl/src/ssl/bio.rs`: a BIO adapter that wraps a
Rust stream (`Read + Write`) behind OpenSSL's `BIO` callback table.

The source unit defines a heap-allocated `StreamState` (the wrapped stream plus
an optional last `io::Error`), a per-type active `BIO_METHOD` table, a static
destroy-only `DESTROY_METHOD` table, the callback trampolines
`bwrite`/`bread`/`bputs`/`ctrl`/`create`/`destroy`, and the lifecycle
operations `new`/`take_error`/`take_stream`/`get_ref`/`get_mut`.

Modelling conventions:
- a raw pointer that may be null is an `Option`;
- undefined behaviour (dereferencing a null opaque pointer, `Box::from_raw` on
  null, a failed `assert!`) is `Option.none` in the result;
- `c_int` casts of `usize` counts are modelled by `c_int_of_nat` (truncate to
  32 bits, reinterpret signed);
- the wrapped stream is a type `S` together with `StreamOps S`, whose
  operations return the `io` result paired with the mutated stream value
  (Rust's `&mut self` receivers).
-/

namespace BioAdapter

/-- Kind of an `io::Error`; the adapter only distinguishes `WouldBlock` and
`NotConnected` from everything else (`retriable_error`). -/
inductive ErrorKind where
  | wouldBlock
  | notConnected
  | other (code : Nat)
deriving DecidableEq, Repr

/-- An `io::Error`, abstracted to the data the adapter inspects: its kind. -/
structure IOError where
  kind : ErrorKind
deriving DecidableEq, Repr

/-- The stream capability consumed by the adapter: `Read + Write` (and `flush`
from `Write`). Each operation returns the `io::Result` paired with the
possibly-mutated stream value. `write` receives the byte buffer, `read`
receives the buffer length and reports the byte count read. -/
structure StreamOps (S : Type) where
  write : S → List Nat → (Except IOError Nat) × S
  read : S → Nat → (Except IOError Nat) × S
  flush : S → (Except IOError Unit) × S

/-- `StreamState<S>`: the Adapter State owned by the BIO's opaque pointer. -/
structure StreamState (S : Type) where
  stream : S
  error : Option IOError
deriving DecidableEq, Repr

/-- Modelled from the spec: the `BIO_METHOD` layout of the `ffi` crate (not
under `src/`). Each callback slot records only whether it is populated
(`Some(fn)` in the source); the adapter never reads the slots itself. -/
structure BIO_METHOD where
  type_ : Nat
  name : List Int
  bwrite : Bool
  bread : Bool
  bputs : Bool
  bgets : Bool
  ctrl : Bool
  create : Bool
  destroy : Bool
  callback_ctrl : Bool
deriving DecidableEq, Repr

/-- Modelled from the spec: `BIO_TYPE_NONE`, the foreign "non-standard custom
type" tag from the `ffi` crate. -/
def BIO_TYPE_NONE : Nat := 0

/-- The `NAME` constant: the C string "rust". -/
def NAME : List Int := [114, 117, 115, 116, 0]

/-- The static destroy-only method table installed by `take_stream`. -/
def DESTROY_METHOD : BIO_METHOD :=
  { type_ := BIO_TYPE_NONE
    name := NAME
    bwrite := false
    bread := false
    bputs := false
    bgets := false
    ctrl := false
    create := false
    destroy := true
    callback_ctrl := false }

/-- The active method table heap-allocated by `new` (slot population of the
`Box::new(BIO_METHOD { .. })` literal in `new`). -/
def ACTIVE_METHOD : BIO_METHOD :=
  { type_ := BIO_TYPE_NONE
    name := NAME
    bwrite := true
    bread := true
    bputs := true
    bgets := false
    ctrl := true
    create := true
    destroy := false
    callback_ctrl := false }

/-- Modelled from the spec: the foreign `BIO` channel object (`ffi` crate, not
under `src/`), restricted to the fields `bio.rs` touches. `ptr` is the opaque
pointer (`none` = null); `method` is the method-descriptor pointer, modelled by
the descriptor value it points to; the `flags` retry bits are modelled as the
two booleans `retryRead`/`retryWrite` manipulated by the
`BIO_clear_retry_flags`/`BIO_set_retry_read`/`BIO_set_retry_write` helpers. -/
structure BIO (S : Type) where
  ptr : Option (StreamState S)
  init : Int
  num : Int
  retryRead : Bool
  retryWrite : Bool
  method : BIO_METHOD
deriving DecidableEq, Repr

variable {S : Type}

/-- Modelled from the spec: `BIO_clear_retry_flags` (from `ffi_extras`, not
under `src/`) clears both per-object retry bits. -/
def BIO_clear_retry_flags (bio : BIO S) : BIO S :=
  { bio with retryRead := false, retryWrite := false }

/-- Modelled from the spec: `BIO_set_retry_read` sets the read-retry bit. -/
def BIO_set_retry_read (bio : BIO S) : BIO S :=
  { bio with retryRead := true }

/-- Modelled from the spec: `BIO_set_retry_write` sets the write-retry bit. -/
def BIO_set_retry_write (bio : BIO S) : BIO S :=
  { bio with retryWrite := true }

/-- The `usize → c_int` cast (`len as c_int`): truncate to 32 bits and
reinterpret as a signed 32-bit integer. -/
def c_int_of_nat (n : Nat) : Int :=
  if n % 2 ^ 32 < 2 ^ 31 then ((n % 2 ^ 32 : Nat) : Int)
  else ((n % 2 ^ 32 : Nat) : Int) - 2 ^ 32

/-- `retriable_error`: true exactly for `WouldBlock` and `NotConnected`. -/
def retriable_error (err : IOError) : Bool :=
  match err.kind with
  | ErrorKind.wouldBlock => true
  | ErrorKind.notConnected => true
  | ErrorKind.other _ => false

/-- The `bwrite::<S>` callback. `buf` is the byte slice
`slice::from_raw_parts(buf, len as usize)`; a null opaque pointer
(`state::<S>(bio)` on null) is undefined behaviour, hence `none`. -/
def bwrite (ops : StreamOps S) (bio : BIO S) (buf : List Nat) :
    Option (Int × BIO S) :=
  let bio := BIO_clear_retry_flags bio
  match bio.ptr with
  | none => none
  | some st =>
    match ops.write st.stream buf with
    | (Except.ok n, s1) =>
      some (c_int_of_nat n, { bio with ptr := some { st with stream := s1 } })
    | (Except.error err, s1) =>
      let bio := if retriable_error err then BIO_set_retry_write bio else bio
      some (-1, { bio with ptr := some { stream := s1, error := some err } })

/-- The `bread::<S>` callback: reads up to `len` bytes into the supplied
buffer; the buffer contents are not modelled, only the reported count. -/
def bread (ops : StreamOps S) (bio : BIO S) (len : Nat) :
    Option (Int × BIO S) :=
  let bio := BIO_clear_retry_flags bio
  match bio.ptr with
  | none => none
  | some st =>
    match ops.read st.stream len with
    | (Except.ok n, s1) =>
      some (c_int_of_nat n, { bio with ptr := some { st with stream := s1 } })
    | (Except.error err, s1) =>
      let bio := if retriable_error err then BIO_set_retry_read bio else bio
      some (-1, { bio with ptr := some { stream := s1, error := some err } })

/-- `strlen` on a byte sequence: the number of bytes before the first 0. -/
def strlen (s : List Nat) : Nat :=
  (s.takeWhile (fun c => c ≠ 0)).length

/-- The `bputs::<S>` callback: `bwrite::<S>(bio, s, strlen(s) as c_int)`; the
slice the write callback sees is the first `strlen s` bytes of `s`. -/
def bputs (ops : StreamOps S) (bio : BIO S) (s : List Nat) :
    Option (Int × BIO S) :=
  bwrite ops bio (s.take (strlen s))

/-- Modelled from the spec: `BIO_CTRL_FLUSH`, the foreign flush command code
(`ffi` crate, not under `src/`); its concrete value is the foreign library's. -/
def BIO_CTRL_FLUSH : Int := 11

/-- The `ctrl::<S>` callback; the `c_long` and `c_void` auxiliary arguments are
ignored by the source, so only the `c_long` one is kept (unused). -/
def ctrl (ops : StreamOps S) (bio : BIO S) (cmd : Int) (_num : Int) :
    Option (Int × BIO S) :=
  if cmd = BIO_CTRL_FLUSH then
    match bio.ptr with
    | none => none
    | some st =>
      match ops.flush st.stream with
      | (Except.ok _, s1) =>
        some (1, { bio with ptr := some { st with stream := s1 } })
      | (Except.error err, s1) =>
        some (0, { bio with ptr := some { stream := s1, error := some err } })
  else
    some (0, bio)

/-- The `create` callback: zero the bookkeeping fields and report 1. -/
def create (bio : BIO S) : Int × BIO S :=
  (1, { bio with init := 0, num := 0, ptr := none,
                 retryRead := false, retryWrite := false })

/-- The `destroy` callback of `DESTROY_METHOD`. The whole BIO pointer may be
null (`some 0`); on a non-null BIO it asserts the opaque pointer is null
(`assert!` failure = `none`) and reports 1. -/
def destroy (bio : Option ( BIO S)) : Option Int :=
  match bio with
  | none => some 0
  | some b =>
    match b.ptr with
    | none => some 1
    | some _ => none

/-- `take_error::<S>`: `state.error.take()` — returns the stored error and
leaves the slot empty; undefined behaviour on a detached BIO (`none`). -/
def take_error (bio : BIO S) : Option (Option IOError × BIO S) :=
  match bio.ptr with
  | none => none
  | some st => some (st.error, { bio with ptr := some { st with error := none } })

/-- `take_stream::<S>`: reclaim the `StreamState` box from the opaque pointer
(undefined behaviour if it is null, hence `none`), null the opaque pointer,
install `DESTROY_METHOD`, clear `init`, and return the stream, discarding the
error slot. -/
def take_stream (bio : BIO S) : Option (S × BIO S) :=
  match bio.ptr with
  | none => none
  | some st =>
    some (st.stream, { bio with ptr := none, method := DESTROY_METHOD, init := 0 })

/-- `SslError` (from `ssl::error`, not under `src/`): modelled from the spec as
the construction-time failure surfaced when `BIO_new` returns null. -/
inductive SslError where
  | constructionError
deriving DecidableEq, Repr

/-- Modelled from the spec: `BIO_new` (the foreign library's reference-counted
constructor, not under `src/`) allocates a BIO for the given method table and
runs the method's `create` callback before returning; `ok = false` models the
allocation failing (a null return). -/
def BIO_new (S : Type) (m : BIO_METHOD) (ok : Bool) : Option ( BIO S) :=
  if ok then
    some (create { ptr := none, init := 0, num := 0, retryRead := false,
                   retryWrite := false, method := m }).2
  else
    none

/-- `new::<S>`: build the active method table and the `StreamState`, call
`BIO_new` (failure surfaces as `SslError` via `try_ssl_null!` and drops the
state and method boxes), then install the state pointer, set `init = 1`, and
return the BIO with the owning method handle. -/
def new (ok : Bool) (stream : S) : Except SslError ( BIO S × BIO_METHOD) :=
  let method := ACTIVE_METHOD
  let state : StreamState S := { stream := stream, error := none }
  match BIO_new S method ok with
  | none => Except.error SslError.constructionError
  | some bio => Except.ok ({ bio with ptr := some state, init := 1 }, method)

/-- BIO states reachable through the adapter's own protocol: produced by a
successful `new`, then transformed by callback invocations (`bwrite`, `bread`,
`bputs`, `ctrl`), the error query, and detachment — each step defined (not
undefined behaviour). -/
inductive Reachable (ops : StreamOps S) : BIO S → Prop where
  | of_new : ∀ (ok : Bool) (s0 : S) (bio : BIO S) (m : BIO_METHOD),
      new ok s0 = Except.ok (bio, m) → Reachable ops bio
  | of_bwrite : ∀ (bio : BIO S) (buf : List Nat) (r : Int) (bio1 : BIO S),
      Reachable ops bio → bwrite ops bio buf = some (r, bio1) →
      Reachable ops bio1
  | of_bread : ∀ (bio : BIO S) (len : Nat) (r : Int) (bio1 : BIO S),
      Reachable ops bio → bread ops bio len = some (r, bio1) →
      Reachable ops bio1
  | of_bputs : ∀ (bio : BIO S) (s : List Nat) (r : Int) (bio1 : BIO S),
      Reachable ops bio → bputs ops bio s = some (r, bio1) →
      Reachable ops bio1
  | of_ctrl : ∀ (bio : BIO S) (cmd num r : Int) (bio1 : BIO S),
      Reachable ops bio → ctrl ops bio cmd num = some (r, bio1) →
      Reachable ops bio1
  | of_take_error : ∀ (bio : BIO S) (e : Option IOError) (bio1 : BIO S),
      Reachable ops bio → take_error bio = some (e, bio1) →
      Reachable ops bio1
  | of_take_stream : ∀ (bio : BIO S) (s1 : S) (bio1 : BIO S),
      Reachable ops bio → take_stream bio = some (s1, bio1) →
      Reachable ops bio1

/-! ### Concrete fixtures used by witnesses -/

/-- A concrete stream over `Nat` whose operations always succeed: `write`
reports the full buffer length, `read` reports the requested length, and each
operation bumps the stream value so mutation is observable. -/
def okOps : StreamOps Nat :=
  { write := fun s buf => (Except.ok buf.length, s + 1)
    read := fun s len => (Except.ok len, s + 2)
    flush := fun s => (Except.ok (), s + 3) }

/-- A concrete stream over `Nat` whose operations always fail with the error
kind `k`, still mutating the stream value. -/
def failOps (k : ErrorKind) : StreamOps Nat :=
  { write := fun s _ => (Except.error { kind := k }, s + 10)
    read := fun s _ => (Except.error { kind := k }, s + 20)
    flush := fun s => (Except.error { kind := k }, s + 30) }

/-- A concrete stream over `Nat` whose read always reports 0 bytes (end of
stream), still bumping the stream value. -/
def eofOps : StreamOps Nat :=
  { write := fun s buf => (Except.ok buf.length, s + 1)
    read := fun s _ => (Except.ok 0, s + 1)
    flush := fun s => (Except.ok (), s + 1) }

/-- A concrete attached BIO over the stream value `0` with an empty error
slot; this is exactly the BIO produced by `new true 0`. -/
def bio0 : BIO Nat :=
  { ptr := some { stream := 0, error := none }, init := 1, num := 0,
    retryRead := false, retryWrite := false, method := ACTIVE_METHOD }

/-- A concrete attached BIO whose error slot already holds a `WouldBlock`
error and whose retry-write bit is set. -/
def bioE : BIO Nat :=
  { ptr := some { stream := 3, error := some { kind := ErrorKind.wouldBlock } },
    init := 1, num := 0, retryRead := false, retryWrite := true,
    method := ACTIVE_METHOD }

/-! ### Claim theorems -/

/-- Auxiliary: taking `strlen s` bytes is taking the bytes before the first
null terminator. -/
theorem take_strlen_eq_takeWhile (s : List Nat) :
    s.take (strlen s) = s.takeWhile (fun c => c ≠ 0) := by
  induction s with
  | nil => rfl
  | cons a t ih =>
    by_cases ha : a = 0
    · simp [strlen, List.takeWhile, ha]
    · simpa [strlen, List.takeWhile, ha] using ih

/-- C7: if the foreign `BIO_new` call fails, `new` returns the construction
error and nothing else (the freshly built `StreamState` and method table are
dropped, not returned); on success it returns the BIO with the state pointer
installed in the opaque slot, `init` set to 1, and the owning handle to the
active method table. -/
theorem c7_new_construction (s0 : S) :
    new false s0 =
      (Except.error SslError.constructionError :
        Except SslError ( BIO S × BIO_METHOD)) ∧
    new true s0 =
      Except.ok
        ({ ptr := some { stream := s0, error := none }, init := 1, num := 0,
           retryRead := false, retryWrite := false, method := ACTIVE_METHOD },
         ACTIVE_METHOD) :=
  ⟨rfl, rfl⟩

/-- C5: `bputs` on a byte string `s` is exactly `bwrite` on the prefix of `s`
before the first null terminator, whose length is `strlen s` — identical
return value, retry flags, stored error, and bytes passed to the stream. -/
theorem c5_bputs_delegates_to_bwrite (ops : StreamOps S) (bio : BIO S)
    (s : List Nat) :
    bputs ops bio s = bwrite ops bio (s.take (strlen s)) ∧
    bputs ops bio s = bwrite ops bio (s.takeWhile (fun c => c ≠ 0)) ∧
    strlen s = (s.takeWhile (fun c => c ≠ 0)).length :=
  ⟨rfl, by rw [bputs, take_strlen_eq_takeWhile], rfl⟩

/-- C4: `take_error` on an attached BIO returns the stored error (or `none` if
empty) and clears the slot — an immediate second call returns `none` — while
leaving the stream and every other BIO field unchanged. -/
theorem c4_take_error_clears (bio : BIO S) (st : StreamState S)
    (h : bio.ptr = some st) :
    take_error bio =
      some (st.error, { bio with ptr := some { st with error := none } }) ∧
    ∀ e bio1, take_error bio = some (e, bio1) →
      e = st.error ∧
      take_error bio1 = some (none, bio1) ∧
      bio1.ptr = some { stream := st.stream, error := none } ∧
      bio1.method = bio.method ∧ bio1.init = bio.init ∧ bio1.num = bio.num ∧
      bio1.retryRead = bio.retryRead ∧ bio1.retryWrite = bio.retryWrite := by
  refine ⟨by simp [take_error, h], ?_⟩
  intro e bio1 he
  rw [take_error, h] at he
  injection he with he
  injection he with he1 he2
  subst he1
  subst he2
  exact ⟨rfl, rfl, rfl, rfl, rfl, rfl, rfl, rfl⟩

/-- Witness for C4 at the concrete BIO `bioE`, whose slot holds a `WouldBlock`
error. -/
theorem c4_take_error_clears_witness :
    take_error bioE =
      some (some { kind := ErrorKind.wouldBlock },
            { bioE with ptr := some { stream := 3, error := none } }) ∧
    take_error { bioE with ptr := some { stream := 3, error := none } } =
      some (none, { bioE with ptr := some { stream := 3, error := none } }) :=
  ⟨(c4_take_error_clears bioE
      { stream := 3, error := some { kind := ErrorKind.wouldBlock } } rfl).1,
   ((c4_take_error_clears bioE
      { stream := 3, error := some { kind := ErrorKind.wouldBlock } } rfl).2
      _ _ rfl).2.1⟩

/-- C1: on an attached BIO, the write and read callbacks first clear both
retry flags; on stream success they return the reported byte count (cast to
`c_int`, the identity on counts below `2 ^ 31`); on stream failure they set the
corresponding retry flag exactly when `retriable_error` holds, store the error
in the state's slot overwriting any prior one, and return `-1`. -/
theorem c1_bwrite_bread_callback (ops : StreamOps S) (bio : BIO S)
    (st : StreamState S) (buf : List Nat) (len : Nat)
    (h : bio.ptr = some st) :
    (∀ n s1, ops.write st.stream buf = (Except.ok n, s1) →
      bwrite ops bio buf =
        some (c_int_of_nat n,
          { bio with retryRead := false, retryWrite := false,
                     ptr := some { st with stream := s1 } })) ∧
    (∀ err s1, ops.write st.stream buf = (Except.error err, s1) →
      bwrite ops bio buf =
        some (-1,
          { bio with retryRead := false, retryWrite := retriable_error err,
                     ptr := some { stream := s1, error := some err } })) ∧
    (∀ n s1, ops.read st.stream len = (Except.ok n, s1) →
      bread ops bio len =
        some (c_int_of_nat n,
          { bio with retryRead := false, retryWrite := false,
                     ptr := some { st with stream := s1 } })) ∧
    (∀ err s1, ops.read st.stream len = (Except.error err, s1) →
      bread ops bio len =
        some (-1,
          { bio with retryRead := retriable_error err, retryWrite := false,
                     ptr := some { stream := s1, error := some err } })) ∧
    (∀ n : Nat, n < 2 ^ 31 → c_int_of_nat n = (n : Int)) := by
  refine ⟨?_, ?_, ?_, ?_, ?_⟩
  · intro n s1 hw
    simp [bwrite, BIO_clear_retry_flags, h, hw]
  · intro err s1 hw
    cases hr : retriable_error err <;>
      simp [bwrite, BIO_clear_retry_flags, BIO_set_retry_write, h, hw, hr]
  · intro n s1 hw
    simp [bread, BIO_clear_retry_flags, h, hw]
  · intro err s1 hw
    cases hr : retriable_error err <;>
      simp [bread, BIO_clear_retry_flags, BIO_set_retry_read, h, hw, hr]
  · intro n hn
    have h32 : n % 2 ^ 32 = n := Nat.mod_eq_of_lt (by omega)
    rw [c_int_of_nat, h32, if_pos hn]

/-- Witness for C1 at concrete inputs: a successful 3-byte write on `bio0`,
and a `WouldBlock` write failure on `bio0`. -/
theorem c1_bwrite_bread_callback_witness :
    bwrite okOps bio0 [7, 7, 7] =
      some (c_int_of_nat 3,
        { bio0 with retryRead := false, retryWrite := false,
                    ptr := some { stream := 1, error := none } }) ∧
    bwrite (failOps ErrorKind.wouldBlock) bio0 [7] =
      some (-1,
        { bio0 with retryRead := false,
                    retryWrite := retriable_error { kind := ErrorKind.wouldBlock },
                    ptr := some { stream := 10,
                                  error := some { kind := ErrorKind.wouldBlock } } }) :=
  ⟨(c1_bwrite_bread_callback okOps bio0 { stream := 0, error := none }
      [7, 7, 7] 0 rfl).1 3 1 rfl,
   (c1_bwrite_bread_callback (failOps ErrorKind.wouldBlock) bio0
      { stream := 0, error := none } [7] 0 rfl).2.1
      { kind := ErrorKind.wouldBlock } 10 rfl⟩

/-- C10: a successful zero-byte stream read (end of stream) is reported as
success: the read callback returns `0`, not `-1`, leaves the error slot
exactly as it was, and both retry flags end up cleared. -/
theorem c10_bread_eof_success (ops : StreamOps S) (bio : BIO S)
    (st : StreamState S) (len : Nat) (s1 : S)
    (h : bio.ptr = some st) (hr : ops.read st.stream len = (Except.ok 0, s1)) :
    bread ops bio len =
      some (0, { bio with retryRead := false, retryWrite := false,
                          ptr := some { stream := s1, error := st.error } }) := by
  have h0 : c_int_of_nat 0 = (0 : Int) := rfl
  cases st with
  | mk s e => simp [bread, BIO_clear_retry_flags, h, hr, h0]

/-- Witness for C10: a stream whose read reports 0 bytes on the BIO `bioE`,
whose error slot stays intact and whose retry-write bit gets cleared. -/
theorem c10_bread_eof_success_witness :
    bread eofOps bioE 4 =
      some (0, { bioE with retryRead := false, retryWrite := false,
                           ptr := some { stream := 4,
                                         error := some { kind := ErrorKind.wouldBlock } } }) :=
  c10_bread_eof_success eofOps bioE
    { stream := 3, error := some { kind := ErrorKind.wouldBlock } } 4 4 rfl rfl

/-- C6: the control callback handles only the flush command: on that command
it returns 1 exactly when the stream's flush succeeds, and on flush failure it
stores the error in the state and returns 0; every other command returns 0
unconditionally with the whole BIO (stream included) untouched. -/
theorem c6_ctrl_flush_only (ops : StreamOps S) (bio : BIO S)
    (st : StreamState S) (cmd num : Int) (h : bio.ptr = some st) :
    (∀ s1, ops.flush st.stream = (Except.ok (), s1) →
      ctrl ops bio BIO_CTRL_FLUSH num =
        some (1, { bio with ptr := some { st with stream := s1 } })) ∧
    (∀ err s1, ops.flush st.stream = (Except.error err, s1) →
      ctrl ops bio BIO_CTRL_FLUSH num =
        some (0, { bio with ptr := some { stream := s1, error := some err } })) ∧
    (cmd ≠ BIO_CTRL_FLUSH → ctrl ops bio cmd num = some (0, bio)) := by
  refine ⟨?_, ?_, ?_⟩
  · intro s1 hf
    simp [ctrl, h, hf]
  · intro err s1 hf
    simp [ctrl, h, hf]
  · intro hcmd
    simp [ctrl, hcmd]

/-- Witness for C6: flush succeeding on `bio0`, flush failing on `bio0`, and a
non-flush command on `bio0`. -/
theorem c6_ctrl_flush_only_witness :
    ctrl okOps bio0 BIO_CTRL_FLUSH 0 =
      some (1, { bio0 with ptr := some { stream := 3, error := none } }) ∧
    ctrl (failOps (ErrorKind.other 5)) bio0 BIO_CTRL_FLUSH 0 =
      some (0, { bio0 with
                   ptr := some { stream := 30,
                                 error := some { kind := ErrorKind.other 5 } } }) ∧
    ctrl okOps bio0 7 0 = some (0, bio0) :=
  ⟨(c6_ctrl_flush_only okOps bio0 { stream := 0, error := none } 7 0 rfl).1
      3 rfl,
   (c6_ctrl_flush_only (failOps (ErrorKind.other 5)) bio0
      { stream := 0, error := none } 7 0 rfl).2.1
      { kind := ErrorKind.other 5 } 30 rfl,
   (c6_ctrl_flush_only okOps bio0 { stream := 0, error := none } 7 0 rfl).2.2
      (by decide)⟩

/-- C8: no callback clears a stored error: a successful write, read, or flush
carries the previous error slot through unchanged (the slot is only ever
overwritten by a failing operation or emptied by `take_error`). -/
theorem c8_success_preserves_error (ops : StreamOps S) (bio : BIO S)
    (st : StreamState S) (buf : List Nat) (len : Nat) (num : Int)
    (h : bio.ptr = some st) :
    (∀ n s1, ops.write st.stream buf = (Except.ok n, s1) →
      ∀ r bio1, bwrite ops bio buf = some (r, bio1) →
        bio1.ptr = some { stream := s1, error := st.error }) ∧
    (∀ n s1, ops.read st.stream len = (Except.ok n, s1) →
      ∀ r bio1, bread ops bio len = some (r, bio1) →
        bio1.ptr = some { stream := s1, error := st.error }) ∧
    (∀ s1, ops.flush st.stream = (Except.ok (), s1) →
      ∀ r bio1, ctrl ops bio BIO_CTRL_FLUSH num = some (r, bio1) →
        bio1.ptr = some { stream := s1, error := st.error }) ∧
    (∀ cmd, cmd ≠ BIO_CTRL_FLUSH →
      ∀ r bio1, ctrl ops bio cmd num = some (r, bio1) →
        bio1.ptr = some { stream := st.stream, error := st.error }) := by
  cases st with
  | mk s e =>
    refine ⟨?_, ?_, ?_, ?_⟩
    · intro n s1 hw r bio1 hb
      simp [bwrite, BIO_clear_retry_flags, h, hw] at hb
      simp [← hb.2]
    · intro n s1 hw r bio1 hb
      simp [bread, BIO_clear_retry_flags, h, hw] at hb
      simp [← hb.2]
    · intro s1 hf r bio1 hb
      simp [ctrl, h, hf] at hb
      simp [← hb.2]
    · intro cmd hcmd r bio1 hb
      simp [ctrl, hcmd] at hb
      simp [← hb.2, h]

/-- Witness for C8: a successful write on `bioE` (whose slot holds a
`WouldBlock` error) leaves that error in place. -/
theorem c8_success_preserves_error_witness :
    ({ bioE with retryRead := false, retryWrite := false,
                 ptr := some { stream := 4,
                               error := some { kind := ErrorKind.wouldBlock } } } :
        BIO Nat).ptr =
      some { stream := 4, error := some { kind := ErrorKind.wouldBlock } } :=
  (c8_success_preserves_error okOps bioE
      { stream := 3, error := some { kind := ErrorKind.wouldBlock } }
      [9, 9] 0 0 rfl).1 2 4 rfl _ _ rfl

/-- C9: the control callback never touches the retry flags: whatever command
it is given (flush included, succeeding or failing, even with a would-block
flush error), the result's retry bits equal the input's, while the write and
read callbacks always clear both bits on entry. -/
theorem c9_ctrl_preserves_retry_flags (ops : StreamOps S) (bio : BIO S)
    (cmd num : Int) :
    ∀ r bio1, ctrl ops bio cmd num = some (r, bio1) →
      bio1.retryRead = bio.retryRead ∧ bio1.retryWrite = bio.retryWrite := by
  intro r bio1 hb
  rw [ctrl] at hb
  by_cases hcmd : cmd = BIO_CTRL_FLUSH
  · rw [if_pos hcmd] at hb
    cases hp : bio.ptr with
    | none => rw [hp] at hb; exact absurd hb (by simp)
    | some st =>
      rw [hp] at hb
      rcases hf : ops.flush st.stream with ⟨res, s1⟩
      cases res with
      | ok u => simp [hf] at hb; simp [← hb.2]
      | error err => simp [hf] at hb; simp [← hb.2]
  · rw [if_neg hcmd] at hb
    injection hb with hb
    injection hb with hb1 hb2
    subst hb2
    exact ⟨rfl, rfl⟩

/-- Witness for C9: a failing would-block flush on `bioE`, whose retry-write
bit is set, leaves both retry bits exactly as they were. -/
theorem c9_ctrl_preserves_retry_flags_witness :
    ({ bioE with
         ptr := some { stream := 33,
                       error := some { kind := ErrorKind.wouldBlock } } } :
        BIO Nat).retryRead = bioE.retryRead ∧
    ({ bioE with
         ptr := some { stream := 33,
                       error := some { kind := ErrorKind.wouldBlock } } } :
        BIO Nat).retryWrite = bioE.retryWrite :=
  c9_ctrl_preserves_retry_flags (failOps ErrorKind.wouldBlock) bioE
    BIO_CTRL_FLUSH 0 0 _ rfl

/-- Inversion for a defined `bwrite` step: the method pointer is untouched and
the opaque pointer was attached. -/
theorem bwrite_step_inv (ops : StreamOps S) (bio : BIO S) (buf : List Nat)
    (r : Int) (bio1 : BIO S) (hb : bwrite ops bio buf = some (r, bio1)) :
    bio1.method = bio.method ∧ ∃ st, bio.ptr = some st := by
  cases hp : bio.ptr with
  | none => simp [bwrite, BIO_clear_retry_flags, hp] at hb
  | some st =>
    refine ⟨?_, st, rfl⟩
    rcases hw : ops.write st.stream buf with ⟨res, s1⟩
    cases res with
    | ok n =>
      simp [bwrite, BIO_clear_retry_flags, hp, hw] at hb
      simp [← hb.2]
    | error err =>
      cases hr : retriable_error err <;>
        · simp [bwrite, BIO_clear_retry_flags, BIO_set_retry_write,
                hp, hw, hr] at hb
          simp [← hb.2]

/-- Inversion for a defined `bread` step, symmetric to `bwrite_step_inv`. -/
theorem bread_step_inv (ops : StreamOps S) (bio : BIO S) (len : Nat)
    (r : Int) (bio1 : BIO S) (hb : bread ops bio len = some (r, bio1)) :
    bio1.method = bio.method ∧ ∃ st, bio.ptr = some st := by
  cases hp : bio.ptr with
  | none => simp [bread, BIO_clear_retry_flags, hp] at hb
  | some st =>
    refine ⟨?_, st, rfl⟩
    rcases hw : ops.read st.stream len with ⟨res, s1⟩
    cases res with
    | ok n =>
      simp [bread, BIO_clear_retry_flags, hp, hw] at hb
      simp [← hb.2]
    | error err =>
      cases hr : retriable_error err <;>
        · simp [bread, BIO_clear_retry_flags, BIO_set_retry_read,
                hp, hw, hr] at hb
          simp [← hb.2]

/-- Inversion for a defined `ctrl` step: either the BIO is returned untouched
(non-flush command) or the opaque pointer was attached, and the method pointer
is untouched either way. -/
theorem ctrl_step_inv (ops : StreamOps S) (bio : BIO S) (cmd num : Int)
    (r : Int) (bio1 : BIO S) (hb : ctrl ops bio cmd num = some (r, bio1)) :
    bio1.method = bio.method ∧ (bio1 = bio ∨ ∃ st, bio.ptr = some st) := by
  rw [ctrl] at hb
  by_cases hcmd : cmd = BIO_CTRL_FLUSH
  · rw [if_pos hcmd] at hb
    cases hp : bio.ptr with
    | none => rw [hp] at hb; exact absurd hb (by simp)
    | some st =>
      rw [hp] at hb
      rcases hf : ops.flush st.stream with ⟨res, s1⟩
      cases res with
      | ok u =>
        simp [hf] at hb
        exact ⟨by simp [← hb.2], Or.inr ⟨st, rfl⟩⟩
      | error err =>
        simp [hf] at hb
        exact ⟨by simp [← hb.2], Or.inr ⟨st, rfl⟩⟩
  · rw [if_neg hcmd] at hb
    injection hb with hb
    injection hb with hb1 hb2
    subst hb2
    exact ⟨rfl, Or.inl rfl⟩

/-- Inversion for a defined `take_error` step. -/
theorem take_error_step_inv (bio : BIO S) (e : Option IOError) (bio1 : BIO S)
    (hb : take_error bio = some (e, bio1)) :
    bio1.method = bio.method ∧ ∃ st, bio.ptr = some st := by
  cases hp : bio.ptr with
  | none => simp [take_error, hp] at hb
  | some st =>
    simp [take_error, hp] at hb
    exact ⟨by simp [← hb.2], st, rfl⟩

/-- Inversion for a defined `take_stream` step: the result is detached. -/
theorem take_stream_step_inv (bio : BIO S) (s1 : S) (bio1 : BIO S)
    (hb : take_stream bio = some (s1, bio1)) : bio1.ptr = none := by
  cases hp : bio.ptr with
  | none => simp [take_stream, hp] at hb
  | some st =>
    simp [take_stream, hp] at hb
    simp [← hb.2]

/-- Inversion for a successful `new`: the installed method is the active
table. -/
theorem new_ok_inv (ok : Bool) (s0 : S) (bio : BIO S) (m : BIO_METHOD)
    (hn : new ok s0 = Except.ok (bio, m)) : bio.method = ACTIVE_METHOD := by
  cases ok with
  | false => simp [new, BIO_new] at hn
  | true =>
    simp [new, BIO_new, create] at hn
    simp [← hn.1]

/-- C2: along every protocol-reachable sequence, a BIO whose method pointer is
the inert `DESTROY_METHOD` has a null opaque pointer — `take_stream`
establishes the pairing by nulling the pointer, installing `DESTROY_METHOD`,
and clearing `init` in one step — so the inert `destroy` callback's assertion
never fires on such a BIO; `destroy` returns 0 on a null BIO pointer and 1
otherwise. -/
theorem c2_inert_method_null_ptr (ops : StreamOps S) :
    (∀ bio : BIO S, Reachable ops bio → bio.method = DESTROY_METHOD →
      bio.ptr = none) ∧
    destroy (none : Option ( BIO S)) = some 0 ∧
    (∀ bio : BIO S, bio.ptr = none → destroy (some bio) = some 1) ∧
    (∀ bio : BIO S, Reachable ops bio → bio.method = DESTROY_METHOD →
      destroy (some bio) = some 1) ∧
    (∀ (bio : BIO S) (st : StreamState S), bio.ptr = some st →
      take_stream bio =
        some (st.stream,
          { bio with ptr := none, method := DESTROY_METHOD, init := 0 })) := by
  have hinv : ∀ bio : BIO S, Reachable ops bio →
      bio.method = DESTROY_METHOD → bio.ptr = none := by
    intro bio hR
    induction hR with
    | of_new ok s0 bio m hn =>
      intro hm
      rw [new_ok_inv ok s0 bio m hn] at hm
      exact absurd hm (by decide)
    | of_bwrite bio buf r bio1 hR hb ih =>
      intro hm
      obtain ⟨hmeq, st, hp⟩ := bwrite_step_inv ops bio buf r bio1 hb
      rw [ih (hmeq ▸ hm)] at hp
      exact absurd hp (by simp)
    | of_bread bio len r bio1 hR hb ih =>
      intro hm
      obtain ⟨hmeq, st, hp⟩ := bread_step_inv ops bio len r bio1 hb
      rw [ih (hmeq ▸ hm)] at hp
      exact absurd hp (by simp)
    | of_bputs bio s r bio1 hR hb ih =>
      intro hm
      obtain ⟨hmeq, st, hp⟩ :=
        bwrite_step_inv ops bio (s.take (strlen s)) r bio1 hb
      rw [ih (hmeq ▸ hm)] at hp
      exact absurd hp (by simp)
    | of_ctrl bio cmd num r bio1 hR hb ih =>
      intro hm
      obtain ⟨hmeq, hcase⟩ := ctrl_step_inv ops bio cmd num r bio1 hb
      cases hcase with
      | inl heq => rw [heq]; exact ih (hmeq ▸ hm)
      | inr hex =>
        obtain ⟨st, hp⟩ := hex
        rw [ih (hmeq ▸ hm)] at hp
        exact absurd hp (by simp)
    | of_take_error bio e bio1 hR hb ih =>
      intro hm
      obtain ⟨hmeq, st, hp⟩ := take_error_step_inv bio e bio1 hb
      rw [ih (hmeq ▸ hm)] at hp
      exact absurd hp (by simp)
    | of_take_stream bio s1 bio1 hR hb ih =>
      intro _
      exact take_stream_step_inv bio s1 bio1 hb
  refine ⟨hinv, rfl, ?_, ?_, ?_⟩
  · intro bio hp
    simp [destroy, hp]
  · intro bio hR hm
    simp [destroy, hinv bio hR hm]
  · intro bio st hp
    simp [take_stream, hp]

/-- Witness for C2: the BIO obtained by constructing over the stream value `0`
and then detaching is reachable, carries `DESTROY_METHOD`, and its inert
destroy call reports 1 without tripping the assertion. -/
theorem c2_inert_method_null_ptr_witness :
    destroy
        (some ({ bio0 with ptr := none, method := DESTROY_METHOD, init := 0 } :
          BIO Nat)) =
      some 1 :=
  (c2_inert_method_null_ptr okOps).2.2.2.1 _
    (Reachable.of_take_stream bio0 0 _
      (Reachable.of_new true 0 bio0 ACTIVE_METHOD rfl) rfl) rfl

/-- C3: detachment is a round trip: on an attached BIO, `take_stream` returns
exactly the stream value held in the state at that moment (the error slot is
discarded, nothing is wrapped or truncated), and composing `new` with
`take_stream` yields back the originally wrapped stream value. -/
theorem c3_take_stream_roundtrip (bio : BIO S) (st : StreamState S) (s0 : S)
    (h : bio.ptr = some st) :
    take_stream bio =
      some (st.stream,
        { bio with ptr := none, method := DESTROY_METHOD, init := 0 }) ∧
    (∀ bio2 m2, new true s0 = Except.ok (bio2, m2) →
      (take_stream bio2).map Prod.fst = some s0) := by
  constructor
  · simp [take_stream, h]
  · intro bio2 m2 hn
    simp [new, BIO_new, create] at hn
    simp [take_stream, ← hn.1]

/-- Witness for C3 at the attached BIO `bioE` (stream value 3, pending error)
and the composition `new` then `take_stream` over the stream value 0. -/
theorem c3_take_stream_roundtrip_witness :
    take_stream bioE =
      some (3, { bioE with ptr := none, method := DESTROY_METHOD, init := 0 }) ∧
    (take_stream bio0).map Prod.fst = some 0 :=
  ⟨(c3_take_stream_roundtrip bioE
      { stream := 3, error := some { kind := ErrorKind.wouldBlock } } 0 rfl).1,
   (c3_take_stream_roundtrip bioE
      { stream := 3, error := some { kind := ErrorKind.wouldBlock } } 0 rfl).2
      bio0 ACTIVE_METHOD rfl⟩

end BioAdapter
